import Mathlib

/-!
Verification development for the isu-digital-lib Model Invocation & Telemetry
Layer and Context Assembly Pipeline. The Python source is shallowly embedded:
pure functions become Lean functions, stateful methods become explicit state
passing, Python floats become rationals, external services (LLM provider,
vector store, wall clock) become explicit oracles passed as arguments.
-/

namespace ISUDigitalLib

/-! ## Python string helpers

Models of the Python primitives used by the chunker: `str.split()`,
`str.strip()` and `" ".join(...)`. -/

/-- Model of Python `str.strip()`: drop leading and trailing whitespace
characters. -/
def pyStrip (s : String) : String :=
  String.mk (((s.data.dropWhile Char.isWhitespace).reverse.dropWhile
    Char.isWhitespace).reverse)

/-- Auxiliary for `pySplit`: walk the characters, accumulating the current
word (reversed) in `cur`. -/
def pySplitAux : List Char → List Char → List String
  | [], [] => []
  | [], cur => [String.mk cur.reverse]
  | c :: cs, cur =>
    if c.isWhitespace then
      match cur with
      | [] => pySplitAux cs []
      | _ => String.mk cur.reverse :: pySplitAux cs []
    else
      pySplitAux cs (c :: cur)

/-- Model of Python `str.split()` with no argument: split on runs of
whitespace, never producing empty words. -/
def pySplit (s : String) : List String :=
  pySplitAux s.data []

/-- Model of Python `" ".join(words)`. -/
def joinWords : List String → String
  | [] => ""
  | [w] => w
  | w :: ws => w ++ " " ++ joinWords ws

/-- Model of Python truthiness for an `Optional[str]` value: `None` and the
empty string are falsy. -/
def pyTruthyStr : Option String → Bool
  | none => false
  | some s => !s.isEmpty

/-! ## Python `range` with a step

`range(0, stop, step)` for a positive step, built with structural fuel
(`stop` iterations suffice once `1 ≤ step`). A zero step raises `ValueError`
in Python; a negative step with `stop ≥ 0` yields no elements. Both of those
cases are handled at the call site in `chunk_text`. -/

def rangeUpAux : Nat → Nat → Nat → Nat → List Nat
  | 0, _, _, _ => []
  | fuel + 1, i, stop, step =>
    if i < stop then i :: rangeUpAux fuel (i + step) stop step else []

/-- `pyRangeUp stop step` models Python `range(0, stop, step)` for
`step ≥ 1`. -/
def pyRangeUp (stop step : Nat) : List Nat :=
  rangeUpAux stop 0 stop step

/-! ## Chunker

From `src/analysis/vector_qa.py` (`VectorizedContextQAAnalyzer.chunk_text`)
and `src/analysis/vector_context_qa.py` (`VectorizedQAAnalyzer.chunk_text`):

    words = text.split()
    chunks = []
    overlap = 100
    for i in range(0, len(words), self.chunk_size - overlap):
        chunk = " ".join(words[i:i + self.chunk_size])
        if len(chunk.strip()) > 0:
            chunks.append(chunk)
    return chunks

The source fixes `overlap = 100` as a local constant and takes
`self.chunk_size` from the constructor; the embedding exposes both as
parameters, so the source methods are `chunk_text chunk_size 100`. A
`ValueError` from a zero `range` step is modelled as `Except.error`. -/

def chunk_text (chunk_size overlap : Nat) (words : List String) :
    Except String (List String) :=
  let step : Int := (chunk_size : Int) - (overlap : Int)
  if step = 0 then
    Except.error "range() arg 3 must not be zero"
  else if step < 0 then
    Except.ok []
  else
    Except.ok (((pyRangeUp words.length step.toNat).map
      (fun i => joinWords ((words.drop i).take chunk_size))).filter
      (fun c => decide (0 < (pyStrip c).length)))

/-! ## Data model

From `src/models/base_model_interface.py` (`ModelResponse`),
`src/evaluation/metrics.py` (`PerformanceMetric`) and
`src/evaluation/cost_tracking.py` (`UsageRecord`). Python floats are
rationals; `datetime.now()` timestamps are rationals supplied by a clock
oracle at the call site; the opaque `metadata` maps are not modelled. -/

structure Usage where
  prompt_tokens : Nat
  completion_tokens : Nat
  total_tokens : Nat
  deriving Repr, DecidableEq

structure ModelResponse where
  content : String
  usage : Usage
  latency : Rat
  timestamp : Rat
  model_name : String
  interface_type : String
  error : Option String := none
  context_length : Option Nat := none
  chunks_used : Option Nat := none
  deriving Repr, DecidableEq

structure PerformanceMetric where
  timestamp : Rat
  model : String
  interface_type : String
  analysis_type : String
  response_time : Rat
  token_count : Nat
  success : Bool
  error : Option String := none
  context_length : Option Nat := none
  chunks_used : Option Nat := none
  response_length : Option Nat := none
  deriving Repr, DecidableEq

structure UsageRecord where
  timestamp : Rat
  model : String
  interface_type : String
  prompt_tokens : Nat
  completion_tokens : Nat
  total_tokens : Nat
  cost : Rat
  analysis_type : String
  duration : Rat
  error : Option String := none
  deriving Repr, DecidableEq

/-! ## Cost tracker

From `src/evaluation/cost_tracking.py` (`CostTracker`). The class constant
`MODEL_COSTS` maps a model name to input/output cost per 1000 tokens; the
in-memory state of a tracker is its append-only `usage_records` list. -/

def MODEL_COSTS : List (String × Rat × Rat) :=
  [("gpt-4", ((3 : Rat) / 100, (6 : Rat) / 100)),
   ("gpt-4-0613", ((3 : Rat) / 100, (6 : Rat) / 100)),
   ("gpt-4-32k", ((6 : Rat) / 100, (12 : Rat) / 100)),
   ("gpt-3.5-turbo", ((15 : Rat) / 10000, (2 : Rat) / 1000)),
   ("gpt-3.5-turbo-16k", ((3 : Rat) / 1000, (4 : Rat) / 1000)),
   ("gemini-pro", ((25 : Rat) / 100000, (5 : Rat) / 10000)),
   ("gemini-1.5-pro", ((5 : Rat) / 10000, (1 : Rat) / 1000)),
   ("claude-3-opus", ((15 : Rat) / 1000, (75 : Rat) / 1000)),
   ("claude-3-sonnet", ((3 : Rat) / 1000, (15 : Rat) / 1000))]

/-- `CostTracker.calculate_cost`: unknown models cost `0` (with a logged
warning the embedding drops); otherwise
`(prompt/1000)*input + (completion/1000)*output`. Token counts are taken as
integers so that the non-negativity claim is meaningful. -/
def calculate_cost (model : String) (prompt_tokens completion_tokens : Int) :
    Rat :=
  match MODEL_COSTS.lookup model with
  | none => 0
  | some costs =>
    ((prompt_tokens : Rat) / 1000) * costs.1 +
      ((completion_tokens : Rat) / 1000) * costs.2

/-- `CostTracker.add_usage_record`: computes `total_tokens` and `cost`, then
appends one `UsageRecord` to the tracker state. `ts` is the
`datetime.now()` oracle value. -/
def add_usage_record (records : List UsageRecord) (ts : Rat)
    (model interface_type : String) (prompt_tokens completion_tokens : Nat)
    (analysis_type : String) (duration : Rat) (error : Option String) :
    List UsageRecord :=
  records ++ [{ timestamp := ts
                model := model
                interface_type := interface_type
                prompt_tokens := prompt_tokens
                completion_tokens := completion_tokens
                total_tokens := prompt_tokens + completion_tokens
                cost := calculate_cost model (prompt_tokens : Int)
                  (completion_tokens : Int)
                analysis_type := analysis_type
                duration := duration
                error := error }]

/-! ## Metrics tracker

From `src/evaluation/metrics.py` (`MetricsTracker`). State is the
append-only `metrics` list. `get_average_response_time(group_by='model')`
groups samples with an insertion-ordered `defaultdict(list)` and takes
`statistics.mean` of each group. -/

/-- `MetricsTracker.add_metric`: append one `PerformanceMetric`. -/
def add_metric (metrics : List PerformanceMetric) (m : PerformanceMetric) :
    List PerformanceMetric :=
  metrics ++ [m]

/-- Insert one sample into an insertion-ordered association of groups,
modelling one `groups[group_value].append(x)` step on a
`defaultdict(list)`. -/
def groupUpsert (groups : List (String × List Rat)) (k : String) (v : Rat) :
    List (String × List Rat) :=
  match groups with
  | [] => [(k, [v])]
  | (k0, vs) :: rest =>
    if k0 = k then (k0, vs ++ [v]) :: rest else (k0, vs) :: groupUpsert rest k v

/-- Build the insertion-ordered grouping of the metrics log by a key. -/
def groupField (key : PerformanceMetric → String)
    (val : PerformanceMetric → Rat) (ms : List PerformanceMetric) :
    List (String × List Rat) :=
  ms.foldl (fun g m => groupUpsert g (key m) (val m)) []

/-- `statistics.mean` on a non-empty list of rationals. -/
def pyMean (l : List Rat) : Rat :=
  l.sum / (l.length : Rat)

/-- `MetricsTracker.get_average_response_time(group_by='model')`: empty log
gives the empty dict, otherwise each model maps to the mean of its
`response_time` samples. -/
def get_average_response_time_by_model (ms : List PerformanceMetric) :
    List (String × Rat) :=
  match ms with
  | [] => []
  | _ => (groupField (fun m => m.model) (fun m => m.response_time) ms).map
      (fun p => (p.1, pyMean p.2))

/-! ## Model client state and `_track_metrics`

From `src/models/base_model_interface.py` (`BaseModelInterface`). A client
owns a dict of local rolling counters, optional references to a
`MetricsTracker` and a `CostTracker` (modelled by `Option` of their record
lists), and (in the concrete subclasses) the rate-limit timestamp. -/

structure LocalMetrics where
  total_tokens : Nat := 0
  prompt_tokens : Nat := 0
  completion_tokens : Nat := 0
  total_requests : Nat := 0
  successful_requests : Nat := 0
  total_errors : Nat := 0
  average_latency : Rat := 0
  total_cost : Rat := 0
  deriving Repr, DecidableEq

structure ClientState where
  model_name : String
  interface_type : String
  metrics : LocalMetrics := {}
  metrics_tracker : Option (List PerformanceMetric) := none
  cost_tracker : Option (List UsageRecord) := none
  last_request_time : Rat := 0
  deriving Repr, DecidableEq

/-- `BaseModelInterface._track_metrics`: update the local counters, then
append exactly one record to each configured tracker. `ts` models the
`datetime.now()` calls made while tracking. -/
def track_metrics (st : ClientState) (response : ModelResponse)
    (analysis_type : String) (ts : Rat) : ClientState :=
  let m0 := st.metrics
  let n := m0.total_requests + 1
  let m1 : LocalMetrics :=
    { m0 with
      total_requests := n
      successful_requests :=
        if pyTruthyStr response.error then m0.successful_requests
        else m0.successful_requests + 1
      prompt_tokens := m0.prompt_tokens + response.usage.prompt_tokens
      completion_tokens :=
        m0.completion_tokens + response.usage.completion_tokens
      total_tokens := m0.total_tokens + response.usage.total_tokens
      total_errors :=
        if pyTruthyStr response.error then m0.total_errors + 1
        else m0.total_errors
      average_latency :=
        (m0.average_latency * ((n : Rat) - 1) + response.latency) / (n : Rat) }
  let mt :=
    st.metrics_tracker.map (fun log =>
      add_metric log
        { timestamp := ts
          model := st.model_name
          interface_type := st.interface_type
          analysis_type := analysis_type
          response_time := response.latency
          token_count := response.usage.total_tokens
          success := !pyTruthyStr response.error
          error := response.error
          context_length := response.context_length
          chunks_used := response.chunks_used
          response_length :=
            some (if response.content.isEmpty then 0
                  else response.content.length) })
  let ct :=
    st.cost_tracker.map (fun log =>
      add_usage_record log ts st.model_name st.interface_type
        response.usage.prompt_tokens response.usage.completion_tokens
        analysis_type response.latency response.error)
  { st with metrics := m1, metrics_tracker := mt, cost_tracker := ct }

/-! ## Rate limiting

From `OpenAIInterface._rate_limit` / `GeminiInterface._rate_limit`:

    current_time = time.time()
    time_since_last_request = current_time - self.last_request_time
    if time_since_last_request < self.min_request_interval:
        await time.sleep(self.min_request_interval - time_since_last_request)
    self.last_request_time = time.time()

`time.sleep` here is the synchronous standard-library function (only
`import time` is in scope): it blocks for the requested duration and
returns `None`, and awaiting `None` then raises `TypeError`. So on the
suspension branch the coroutine blocks for `min_interval - elapsed` seconds
and then raises, and the `self.last_request_time = time.time()` line never
runs; only on the no-suspension branch is the new request time recorded.
The wall clock is an oracle: `t` is the value of the first `time.time()`
call and `eps ≥ 0` the further advance before the second `time.time()` call
on the non-raising branch. The result is the triple (suspension duration
consumed, `last_request_time` after the call, exception raised if any). -/

/-- The message of the `TypeError` raised by `await time.sleep(...)`
(`time.sleep` returns `None`, which cannot be awaited). -/
def awaitNoneTypeError : String :=
  "object NoneType cannot be used in await expression"

def rate_limit (min_interval last_request_time t eps : Rat) :
    Rat × Rat × Option String :=
  let elapsed := t - last_request_time
  if elapsed < min_interval then
    (min_interval - elapsed, last_request_time, some awaitNoneTypeError)
  else
    (0, t + eps, none)

/-! ## OpenAI interface

From `src/models/openai_interface.py` (`OpenAIInterface.generate_response`).
The `while attempts < self.retry_attempts` loop body first awaits
`_rate_limit()` and then issues the provider request, both inside `try`; the
`except` block increments `attempts`, builds the `Final error after N
attempts` sentinel when `attempts == retry_attempts`, and otherwise runs
`await time.sleep(retry_delay)` — which, like the rate-limit sleep, awaits
`None` and raises `TypeError`. That backoff raise happens outside any `try`,
so it propagates out of `generate_response`: the loop can never start a
second provider attempt, and a single provider-outcome oracle value
suffices. With the source's fixed `retry_attempts = 3`, every
first-attempt failure (including a rate-limit `TypeError`, which the `try`
does catch) escapes as an exception before the sentinel or the tracking
line is reached; the sentinel is reachable only when `retry_attempts = 1`.
With `retry_attempts = 0` the loop never runs and the tracking line raises
`UnboundLocalError` on the unbound `model_response`. -/

structure ProviderSuccess where
  content : String
  prompt_tokens : Nat
  completion_tokens : Nat
  total_tokens : Nat
  deriving Repr, DecidableEq

/-- The message of the `UnboundLocalError` raised when `retry_attempts = 0`
leaves `model_response` unbound at the tracking line. -/
def unboundLocalError : String :=
  "local variable model_response referenced before assignment"

/-- `OpenAIInterface.generate_response` up to (but not including) the
tracking line, as a function of the rate-limit inputs and the single
possible provider attempt: either the exception escaping the call or the
resolved `ModelResponse`, paired with the `last_request_time` after the
call. `lat` and `ts` are the `time.time() - start_time` and
`datetime.now()` oracle values at resolution. -/
def openai_generate_response (model_name interface_type : String)
    (retry : Nat) (min_interval last t eps : Rat)
    (provider : Except String ProviderSuccess) (lat ts : Rat) :
    Except String ModelResponse × Rat :=
  if retry = 0 then
    (Except.error unboundLocalError, last)
  else
    match rate_limit min_interval last t eps with
    | (_, last2, some e) =>
      if 1 = retry then
        (Except.ok { content := ""
                     usage := { prompt_tokens := 0, completion_tokens := 0,
                                total_tokens := 0 }
                     latency := lat
                     timestamp := ts
                     model_name := model_name
                     interface_type := interface_type
                     error := some ("Final error after " ++ toString 1 ++
                       " attempts: " ++ e) }, last2)
      else (Except.error awaitNoneTypeError, last2)
    | (_, last2, none) =>
      match provider with
      | Except.ok s =>
        (Except.ok { content := s.content
                     usage := { prompt_tokens := s.prompt_tokens
                                completion_tokens := s.completion_tokens
                                total_tokens := s.total_tokens }
                     latency := lat
                     timestamp := ts
                     model_name := model_name
                     interface_type := interface_type }, last2)
      | Except.error e =>
        if 1 = retry then
          (Except.ok { content := ""
                       usage := { prompt_tokens := 0,
                                  completion_tokens := 0,
                                  total_tokens := 0 }
                       latency := lat
                       timestamp := ts
                       model_name := model_name
                       interface_type := interface_type
                       error := some ("Final error after " ++ toString 1 ++
                         " attempts: " ++ e) }, last2)
        else (Except.error awaitNoneTypeError, last2)

/-- One full `OpenAIInterface.generate_response` call on a client: when the
call resolves to a response, `_track_metrics` runs exactly once; when the
call raises, the exception propagates before the tracking line, leaving
both trackers untouched (the rate-limit state may still have advanced). -/
def openai_call (st : ClientState) (retry : Nat) (min_interval t eps : Rat)
    (provider : Except String ProviderSuccess) (analysis_type : String)
    (lat ts : Rat) : Except String ModelResponse × ClientState :=
  match openai_generate_response st.model_name st.interface_type retry
      min_interval st.last_request_time t eps provider lat ts with
  | (Except.error e, last2) =>
    (Except.error e, { st with last_request_time := last2 })
  | (Except.ok r, last2) =>
    (Except.ok r, track_metrics { st with last_request_time := last2 } r
      analysis_type ts)

/-! ## Gemini interface

From `src/models/gemini_interface.py` (`GeminiInterface.generate_response`).
A single attempt inside one `try`: on success the usage is counted with the
tokenizer oracle and `total = prompt + completion` by construction; on any
exception the response carries `error = str(e)` — there is no retry loop and
no attempt count in the message. The rate-limit `TypeError` (from
`await time.sleep` inside `_rate_limit`, see the rate-limiting section) is
raised inside the `try` and is therefore just another exception outcome of
the attempt, covered by the `outcome` oracle. -/

structure GeminiSuccess where
  content : String
  prompt_tokens : Nat
  completion_tokens : Nat
  deriving Repr, DecidableEq

/-- The `ModelResponse` constructed by `GeminiInterface.generate_response`
before tracking. -/
def gemini_generate_response (model_name interface_type : String)
    (outcome : Except String GeminiSuccess) (lat ts : Rat) : ModelResponse :=
  match outcome with
  | Except.ok s =>
    { content := s.content
      usage := { prompt_tokens := s.prompt_tokens
                 completion_tokens := s.completion_tokens
                 total_tokens := s.prompt_tokens + s.completion_tokens }
      latency := lat
      timestamp := ts
      model_name := model_name
      interface_type := interface_type }
  | Except.error e =>
    { content := ""
      usage := { prompt_tokens := 0, completion_tokens := 0,
                 total_tokens := 0 }
      latency := lat
      timestamp := ts
      model_name := model_name
      interface_type := interface_type
      error := some e }

/-- One full `GeminiInterface.generate_response` call on a client. -/
def gemini_call (st : ClientState) (outcome : Except String GeminiSuccess)
    (analysis_type : String) (lat ts : Rat) :
    ModelResponse × ClientState :=
  let r := gemini_generate_response st.model_name st.interface_type outcome
    lat ts
  (r, track_metrics st r analysis_type ts)

/-! ## Vector QA analyzer question loop

From `src/analysis/vector_qa.py`
(`VectorizedContextQAAnalyzer.analyze_single_paper`). For each question the
analyzer queries the vector store; if the returned document list is
non-empty it assembles a prompt, calls the model and appends a result dict;
if the query (or the model call) raises, it appends an error dict; when the
query returns zero documents, the `if` guard fails and nothing at all is
appended for that question. The store and the model are oracles. -/

structure QAResult where
  question_id : String
  question : String
  response : Option String
  chunks_used : Option Nat := none
  timestamp : Rat
  error : Option String := none
  deriving Repr, DecidableEq

/-- The question set of `VectorizedContextQAAnalyzer`. -/
def VECTOR_QUESTIONS : List (String × String) :=
  [("core_concepts",
    "What are the core concepts and ideas presented in this paper?"),
   ("technical_approach",
    "Explain the technical approach and implementation details."),
   ("evaluation",
    "How does the paper evaluate its proposed solution?"),
   ("innovation",
    "What are the novel or innovative aspects of this work?")]

/-- The prompt assembled for one question from the retrieved chunks. -/
def vectorQAPrompt (question context : String) : String :=
  "Based on these relevant sections from the paper, please answer:\n" ++
    question ++
    "\n\nPlease provide a thorough and precise answer based on the following content:\n" ++
    context

/-- The per-question loop of `analyze_single_paper`. `store` returns the
ranked chunk texts for a query (or an exception message), `gen` is
`model.generate_response` on the assembled prompt. -/
def analyze_single_paper_loop (store : String → Except String (List String))
    (gen : String → ModelResponse) (ts : Rat) :
    List (String × String) → List QAResult
  | [] => []
  | (qid, q) :: rest =>
    match store q with
    | Except.error e =>
      { question_id := qid, question := q, response := none,
        timestamp := ts, error := some e } ::
        analyze_single_paper_loop store gen ts rest
    | Except.ok docs =>
      if docs.isEmpty then
        analyze_single_paper_loop store gen ts rest
      else
        let context := String.intercalate "\n\n" docs
        let response := gen (vectorQAPrompt q context)
        { question_id := qid
          question := q
          response := some response.content
          chunks_used := some docs.length
          timestamp := ts
          error := if pyTruthyStr response.error then response.error
                   else none } ::
          analyze_single_paper_loop store gen ts rest

/-! ## Support definitions for the statements below -/

/-- A provider attempt outcome whose successful usage is well-formed
(`total = prompt + completion`); exceptions are vacuously well-formed. -/
def outcomeWellFormed : Except String ProviderSuccess → Bool
  | Except.ok s => s.total_tokens == s.prompt_tokens + s.completion_tokens
  | Except.error _ => true

/-- Run `_track_metrics` over a sequence of resolved responses (paired with
their `datetime.now()` oracle values), left to right. -/
def runTrackList (st : ClientState) (analysis_type : String)
    (pairs : List (ModelResponse × Rat)) : ClientState :=
  pairs.foldl (fun s pr => track_metrics s pr.1 analysis_type pr.2) st

/-- A fixed successful model response, used as a concrete model oracle. -/
def stubResponse : ModelResponse :=
  { content := "ok"
    usage := { prompt_tokens := 1, completion_tokens := 1, total_tokens := 2 }
    latency := 0
    timestamp := 0
    model_name := "gpt-4"
    interface_type := "api" }

/-- Whether the store outcome for a question leads the analyzer to append a
result: an exception does, a non-empty match list does, an empty match list
does not. -/
def storeOutcomeKept : Except String (List String) → Bool
  | Except.error _ => true
  | Except.ok docs => !docs.isEmpty

/-- A concrete metrics log: three samples of model `A` with response times
1, 2, 3 and two samples of model `B` with response times 4, 6. -/
def sampleMetrics5 : List PerformanceMetric :=
  [{ timestamp := 0, model := "A", interface_type := "api",
     analysis_type := "basic_qa", response_time := 1, token_count := 10,
     success := true },
   { timestamp := 1, model := "A", interface_type := "api",
     analysis_type := "basic_qa", response_time := 2, token_count := 10,
     success := true },
   { timestamp := 2, model := "B", interface_type := "api",
     analysis_type := "basic_qa", response_time := 4, token_count := 10,
     success := true },
   { timestamp := 3, model := "A", interface_type := "api",
     analysis_type := "basic_qa", response_time := 3, token_count := 10,
     success := true },
   { timestamp := 4, model := "B", interface_type := "api",
     analysis_type := "basic_qa", response_time := 6, token_count := 10,
     success := true }]

/-- A concrete client constructed with both trackers configured (empty). -/
def sampleClient : ClientState :=
  { model_name := "gpt-4"
    interface_type := "api"
    metrics_tracker := some []
    cost_tracker := some [] }

/-! ## Helper lemmas -/

theorem mem_of_lookup_eq_some {α : Type} {l : List (String × α)} {k : String}
    {v : α} (h : l.lookup k = some v) : (k, v) ∈ l := by
  induction l with
  | nil => simp [List.lookup] at h
  | cons a t ih =>
    obtain ⟨k0, v0⟩ := a
    rw [List.lookup] at h
    cases hbeq : k == k0 with
    | true =>
      rw [hbeq] at h
      simp only [Option.some.injEq] at h
      have hk : k = k0 := by simpa using hbeq
      subst hk
      subst h
      exact List.mem_cons_self _ _
    | false =>
      rw [hbeq] at h
      exact List.mem_cons_of_mem _ (ih h)

/-! ## C8 -/

/-- C8: `CostTracker.calculate_cost` is a pure function of the model name
and the two token counts (it reads only the `MODEL_COSTS` class constant);
for a model name absent from the pricing table it returns exactly 0 without
raising, and for non-negative token counts the result is non-negative, so
every stored `UsageRecord` has non-negative cost. -/
theorem C8_calculate_cost_props (model : String)
    (prompt_tokens completion_tokens : Int) :
    (MODEL_COSTS.lookup model = none →
      calculate_cost model prompt_tokens completion_tokens = 0) ∧
    (0 ≤ prompt_tokens → 0 ≤ completion_tokens →
      0 ≤ calculate_cost model prompt_tokens completion_tokens) := by
  constructor
  · intro h
    simp [calculate_cost, h]
  · intro hp hc
    unfold calculate_cost
    cases hlk : MODEL_COSTS.lookup model with
    | none => simp
    | some costs =>
      have hmem := mem_of_lookup_eq_some hlk
      have hnn : ∀ x ∈ MODEL_COSTS, 0 ≤ x.2.1 ∧ 0 ≤ x.2.2 := by
        intro x hx
        simp only [ MODEL_COSTS, List.mem_cons, List.not_mem_nil, or_false]
          at hx
        rcases hx with h | h | h | h | h | h | h | h | h <;> subst h <;>
          exact ⟨by norm_num, by norm_num⟩
      have hcosts := hnn _ hmem
      have h1 : (0 : Rat) ≤ (prompt_tokens : Rat) / 1000 := by
        apply div_nonneg _ (by norm_num)
        exact_mod_cast hp
      have h2 : (0 : Rat) ≤ (completion_tokens : Rat) / 1000 := by
        apply div_nonneg _ (by norm_num)
        exact_mod_cast hc
      exact add_nonneg (mul_nonneg h1 hcosts.1) (mul_nonneg h2 hcosts.2)

/-- C8 witness: the model name `gpt-5` is not in the pricing table and costs
exactly 0; a known model with non-negative token counts has non-negative
cost. -/
theorem C8_calculate_cost_witness :
    calculate_cost "gpt-5" 100 50 = 0 ∧
    0 ≤ calculate_cost "gpt-4" 100 50 :=
  ⟨(C8_calculate_cost_props "gpt-5" 100 50).1 rfl,
   (C8_calculate_cost_props "gpt-4" 100 50).2 (by decide) (by decide)⟩

/-! ## C3 -/

/-- C3: evaluation of `_rate_limit` at the failing input — `min_interval`
0.5s, previous request recorded at time 0, current clock 0.2s: the call
blocks for 0.3s (= `max 0 (min_interval - elapsed)`) and then raises the
`TypeError` from awaiting the `None` returned by `time.sleep`;
`self.last_request_time = time.time()` never executes, so the recorded
request time stays 0 and no provider attempt starts on this call. The
claim's suspend-then-record mechanism is the evident intent of the source
(the recording line directly follows the conditional sleep, under the
comment `Implement rate limiting`), but the code awaits the synchronous
`time.sleep`. -/
theorem C3_await_bug_evaluation :
    (rate_limit (1/2) 0 (1/5) 0).1 = 3/10 ∧
    (rate_limit (1/2) 0 (1/5) 0).2.1 = 0 ∧
    (rate_limit (1/2) 0 (1/5) 0).2.2 = some awaitNoneTypeError := by
  norm_num [rate_limit]

/-! ## C5 -/

/-- C5 counterexample: with `size = 50 < overlap = 100` (the configuration
the source reaches whenever `chunk_size < 100`, since `overlap` is
hard-coded to 100) the chunker does not fail with a configuration error: the
Python `range` with a negative step yields no iterations, so the chunker
silently returns the empty chunk list for a ten-word text. -/
theorem C5_counterexample :
    chunk_text 50 100
      (pySplit "one two three four five six seven eight nine ten") =
      Except.ok [] ∧
    ¬ ∃ e, chunk_text 50 100
      (pySplit "one two three four five six seven eight nine ten") =
      Except.error e := by
  have h : chunk_text 50 100
      (pySplit "one two three four five six seven eight nine ten") =
      Except.ok [] := rfl
  refine ⟨h, ?_⟩
  rintro ⟨e, he⟩
  rw [h] at he
  exact Except.noConfusion he

/-- C5 amended: for `overlap = size` the chunker raises the `ValueError`
coming from the zero `range` step (an error, though not a purpose-built
configuration error), while for `overlap > size` it silently returns the
empty chunk list instead of failing; in neither case does it loop
forever. -/
theorem C5_degenerate_amended (size overlap : Nat) (words : List String) :
    (overlap = size →
      chunk_text size overlap words =
        Except.error "range() arg 3 must not be zero") ∧
    (size < overlap → chunk_text size overlap words = Except.ok []) := by
  constructor
  · intro h
    subst h
    simp [chunk_text]
  · intro h
    have h0 : ¬((size : Int) - (overlap : Int) = 0) := by omega
    have h1 : (size : Int) - (overlap : Int) < 0 := by omega
    simp [chunk_text, h0, h1]

/-- C5 amended witness: `overlap = size = 100` raises; `size = 50` with the
hard-coded `overlap = 100` silently yields no chunks. -/
theorem C5_degenerate_witness :
    chunk_text 100 100 (pySplit "one two") =
      Except.error "range() arg 3 must not be zero" ∧
    chunk_text 50 100 (pySplit "one two") = Except.ok [] :=
  ⟨(C5_degenerate_amended 100 100 (pySplit "one two")).1 rfl,
   (C5_degenerate_amended 50 100 (pySplit "one two")).2 (by decide)⟩

/-! ## C6 -/

/-- C6 counterexample: for a store whose query returns zero matches for
every question, `analyze_single_paper` produces an empty result list for the
four-question set — each question is silently omitted, and no
"no relevant context" sentinel distinct from normal results is returned. -/
theorem C6_counterexample :
    analyze_single_paper_loop (fun _ => Except.ok [])
      (fun _ => stubResponse) 0 VECTOR_QUESTIONS = [] ∧
    VECTOR_QUESTIONS.length = 4 :=
  ⟨rfl, rfl⟩

/-- C6 amended: when the store query for a question returns zero matches,
the analyzer appends no result at all for that question; the result list
contains exactly the questions whose query raised or returned at least one
match, in order. Callers cannot branch on a sentinel — the zero-match case
is indistinguishable from the question never having been asked. -/
theorem C6_silent_omission_amended
    (store : String → Except String (List String))
    (gen : String → ModelResponse) (ts : Rat)
    (qs : List (String × String)) :
    (analyze_single_paper_loop store gen ts qs).map
        (fun r => r.question_id) =
      (qs.filter (fun p => storeOutcomeKept (store p.2))).map Prod.fst := by
  induction qs with
  | nil => rfl
  | cons q rest ih =>
    obtain ⟨qid, qtext⟩ := q
    show (analyze_single_paper_loop store gen ts ((qid, qtext) :: rest)).map
        (fun r => r.question_id) = _
    rw [analyze_single_paper_loop]
    cases hs : store qtext with
    | error e =>
      simp only [List.map_cons, List.filter_cons, hs, storeOutcomeKept]
      simpa using ih
    | ok docs =>
      cases hd : docs.isEmpty with
      | true =>
        simp only [hd, if_true, List.filter_cons, hs, storeOutcomeKept,
          Bool.not_true]
        simpa using ih
      | false =>
        simp only [hd, if_false, List.map_cons, List.filter_cons, hs,
          storeOutcomeKept, Bool.not_false]
        simpa using ih

/-! ## C1 -/

/-- C1 counterexample: the claim covers `GeminiInterface.generate_response`
as well, but Gemini makes a single attempt with no retry loop and stores the
bare exception message. With exception message `boom` the returned error
string is exactly `boom`: it contains no digit at all, so it does not state
the number of attempts as the claim requires. -/
theorem C1_counterexample :
    (gemini_generate_response "gemini-1.5-pro" "api" (Except.error "boom")
        0 0).content = "" ∧
    (gemini_generate_response "gemini-1.5-pro" "api" (Except.error "boom")
        0 0).usage = { prompt_tokens := 0, completion_tokens := 0,
                       total_tokens := 0 } ∧
    (gemini_generate_response "gemini-1.5-pro" "api" (Except.error "boom")
        0 0).error = some "boom" ∧
    "boom".data.any Char.isDigit = false :=
  ⟨rfl, rfl, rfl, by decide⟩

/-- C1 amended: when the first provider attempt raises, the Gemini client
returns (never raises) a `ModelResponse` with empty content, zeroed usage
and the bare exception message (no retry loop, no attempt count), while the
OpenAI client with its configured `retry_attempts = 3` (indeed any value
at least 2) catches the attempt's exception but then raises `TypeError`
from the backoff `await time.sleep(retry_delay)`, so `generate_response`
raises instead of returning and the `Final error after N attempts` sentinel
is unreachable; only with `retry_attempts = 1` is a sentinel returned,
reading `Final error after 1 attempts:` followed by the exception message,
with empty content and zeroed usage. -/
theorem C1_await_bug_amended :
    (∀ (mn it : String) (retry : Nat) (min_interval last t eps : Rat)
       (e : String) (lat ts : Rat), 2 ≤ retry →
      (openai_generate_response mn it retry min_interval last t eps
        (Except.error e) lat ts).1 = Except.error awaitNoneTypeError) ∧
    (∀ (mn it : String) (min_interval last t eps : Rat) (e : String)
       (lat ts : Rat), ¬(t - last < min_interval) →
      (openai_generate_response mn it 1 min_interval last t eps
        (Except.error e) lat ts).1 =
        Except.ok { content := ""
                    usage := { prompt_tokens := 0, completion_tokens := 0,
                               total_tokens := 0 }
                    latency := lat
                    timestamp := ts
                    model_name := mn
                    interface_type := it
                    error := some ("Final error after " ++ toString 1 ++
                      " attempts: " ++ e) }) ∧
    (∀ (mn it e : String) (lat ts : Rat),
      gemini_generate_response mn it (Except.error e) lat ts =
        { content := ""
          usage := { prompt_tokens := 0, completion_tokens := 0,
                     total_tokens := 0 }
          latency := lat
          timestamp := ts
          model_name := mn
          interface_type := it
          error := some e }) := by
  refine ⟨?_, ?_, fun mn it e lat ts => rfl⟩
  · intro mn it retry min_interval last t eps e lat ts hretry
    have h0 : ¬(retry = 0) := by omega
    have h1 : ¬((1 : Nat) = retry) := by omega
    by_cases hrl : t - last < min_interval
    · simp [openai_generate_response, rate_limit, h0, h1, hrl]
    · simp [openai_generate_response, rate_limit, h0, h1, hrl]
  · intro mn it min_interval last t eps e lat ts hrl
    simp [openai_generate_response, rate_limit, hrl]

/-- C1 amended witness: with `retry_attempts = 3` a failing first attempt
makes the call raise the backoff `TypeError`; with `retry_attempts = 1` the
`Final error after 1 attempts` sentinel is returned; a failing Gemini call
returns the bare message. -/
theorem C1_await_bug_witness :
    (openai_generate_response "gpt-4-turbo-preview" "api" 3 0 0 0 0
      (Except.error "boom") 2 5).1 = Except.error awaitNoneTypeError ∧
    (openai_generate_response "gpt-4-turbo-preview" "api" 1 0 0 0 0
      (Except.error "boom") 2 5).1 =
      Except.ok { content := ""
                  usage := { prompt_tokens := 0, completion_tokens := 0,
                             total_tokens := 0 }
                  latency := 2
                  timestamp := 5
                  model_name := "gpt-4-turbo-preview"
                  interface_type := "api"
                  error := some ("Final error after " ++ toString 1 ++
                    " attempts: " ++ "boom") } ∧
    gemini_generate_response "gemini-1.5-pro" "api" (Except.error "boom")
        2 5 =
      { content := ""
        usage := { prompt_tokens := 0, completion_tokens := 0,
                   total_tokens := 0 }
        latency := 2
        timestamp := 5
        model_name := "gemini-1.5-pro"
        interface_type := "api"
        error := some "boom" } :=
  ⟨C1_await_bug_amended.1 "gpt-4-turbo-preview" "api" 3 0 0 0 0 "boom" 2 5
      (by decide),
   C1_await_bug_amended.2.1 "gpt-4-turbo-preview" "api" 0 0 0 0 "boom" 2 5
      (by simp),
   C1_await_bug_amended.2.2 "gemini-1.5-pro" "api" "boom" 2 5⟩

/-! ## C7 -/

/-- C7: every `UsageRecord` appended by `CostTracker.add_usage_record`
satisfies `total_tokens = prompt_tokens + completion_tokens` by
construction; every `ModelResponse` built by the Gemini client satisfies it
in both the success and the failure branch; and every `ModelResponse` built
by the OpenAI client satisfies it provided the provider's reported usage is
well-formed (the OpenAI success branch copies the provider's
`total_tokens` verbatim). -/
theorem C7_total_tokens_invariant :
    (∀ (records : List UsageRecord) (ts : Rat) (model itype : String)
       (p c : Nat) (atype : String) (dur : Rat) (err : Option String),
      ∃ rec : UsageRecord,
        add_usage_record records ts model itype p c atype dur err =
          records ++ [rec] ∧
        rec.total_tokens = rec.prompt_tokens + rec.completion_tokens) ∧
    (∀ (mn it : String) (outcome : Except String GeminiSuccess)
       (lat ts : Rat),
      (gemini_generate_response mn it outcome lat ts).usage.total_tokens =
        (gemini_generate_response mn it outcome lat ts).usage.prompt_tokens +
        (gemini_generate_response mn it outcome lat ts).usage.completion_tokens) ∧
    (∀ (mn it : String) (retry : Nat) (min_interval last t eps : Rat)
       (provider : Except String ProviderSuccess) (lat ts : Rat)
       (r : ModelResponse),
      outcomeWellFormed provider = true →
      (openai_generate_response mn it retry min_interval last t eps
        provider lat ts).1 = Except.ok r →
      r.usage.total_tokens =
        r.usage.prompt_tokens + r.usage.completion_tokens) := by
  refine ⟨fun records ts model itype p c atype dur err =>
    ⟨_, rfl, rfl⟩, ?_, ?_⟩
  · intro mn it outcome lat ts
    cases outcome <;> rfl
  · intro mn it retry min_interval last t eps provider lat ts r hwf h
    by_cases h0 : retry = 0
    · have hres : (openai_generate_response mn it retry min_interval last t
          eps provider lat ts).1 = Except.error unboundLocalError := by
        simp [openai_generate_response, h0]
      rw [hres] at h
      exact Except.noConfusion h
    · by_cases hrl : t - last < min_interval
      · by_cases h1 : (1 : Nat) = retry
        · subst h1
          have hres : (openai_generate_response mn it 1 min_interval last t
              eps provider lat ts).1 = Except.ok
              { content := ""
                usage := { prompt_tokens := 0, completion_tokens := 0,
                           total_tokens := 0 }
                latency := lat
                timestamp := ts
                model_name := mn
                interface_type := it
                error := some ("Final error after " ++ toString 1 ++
                  " attempts: " ++ awaitNoneTypeError) } := by
            simp [openai_generate_response, rate_limit, hrl]
          rw [hres] at h
          rw [← Except.ok.inj h]
          rfl
        · have hres : (openai_generate_response mn it retry min_interval
              last t eps provider lat ts).1 =
              Except.error awaitNoneTypeError := by
            simp [openai_generate_response, rate_limit, h0, h1, hrl]
          rw [hres] at h
          exact Except.noConfusion h
      · cases provider with
        | ok sp =>
          have hres : (openai_generate_response mn it retry min_interval
              last t eps (Except.ok sp) lat ts).1 = Except.ok
              { content := sp.content
                usage := { prompt_tokens := sp.prompt_tokens
                           completion_tokens := sp.completion_tokens
                           total_tokens := sp.total_tokens }
                latency := lat
                timestamp := ts
                model_name := mn
                interface_type := it } := by
            simp [openai_generate_response, rate_limit, h0, hrl]
          rw [hres] at h
          rw [← Except.ok.inj h]
          simp only [outcomeWellFormed, beq_iff_eq] at hwf
          exact hwf
        | error e =>
          by_cases h1 : (1 : Nat) = retry
          · subst h1
            have hres : (openai_generate_response mn it 1 min_interval last
                t eps (Except.error e) lat ts).1 = Except.ok
                { content := ""
                  usage := { prompt_tokens := 0, completion_tokens := 0,
                             total_tokens := 0 }
                  latency := lat
                  timestamp := ts
                  model_name := mn
                  interface_type := it
                  error := some ("Final error after " ++ toString 1 ++
                    " attempts: " ++ e) } := by
              simp [openai_generate_response, rate_limit, hrl]
            rw [hres] at h
            rw [← Except.ok.inj h]
            rfl
          · have hres : (openai_generate_response mn it retry min_interval
                last t eps (Except.error e) lat ts).1 =
                Except.error awaitNoneTypeError := by
              simp [openai_generate_response, rate_limit, h0, h1, hrl]
            rw [hres] at h
            exact Except.noConfusion h

/-- C7 witness: a concrete appended usage record; a concrete Gemini success
(3 + 4 = 7); a concrete successful OpenAI resolution whose provider usage
is well-formed (1 + 2 = 3). -/
theorem C7_total_tokens_witness :
    (∃ rec : UsageRecord,
      add_usage_record [] 0 "gpt-4" "api" 10 5 "basic_qa" 1 none =
        [] ++ [rec] ∧
      rec.total_tokens = rec.prompt_tokens + rec.completion_tokens) ∧
    ((gemini_generate_response "gemini-1.5-pro" "api"
        (Except.ok { content := "hi", prompt_tokens := 3,
                     completion_tokens := 4 }) 0 0).usage.total_tokens =
      (gemini_generate_response "gemini-1.5-pro" "api"
        (Except.ok { content := "hi", prompt_tokens := 3,
                     completion_tokens := 4 }) 0 0).usage.prompt_tokens +
      (gemini_generate_response "gemini-1.5-pro" "api"
        (Except.ok { content := "hi", prompt_tokens := 3,
                     completion_tokens := 4 }) 0 0).usage.completion_tokens) ∧
    (({ content := "y"
        usage := { prompt_tokens := 1, completion_tokens := 2,
                   total_tokens := 3 }
        latency := 0
        timestamp := 0
        model_name := "gpt-4"
        interface_type := "api" } : ModelResponse).usage.total_tokens =
      ({ content := "y"
         usage := { prompt_tokens := 1, completion_tokens := 2,
                    total_tokens := 3 }
         latency := 0
         timestamp := 0
         model_name := "gpt-4"
         interface_type := "api" } : ModelResponse).usage.prompt_tokens +
      ({ content := "y"
         usage := { prompt_tokens := 1, completion_tokens := 2,
                    total_tokens := 3 }
         latency := 0
         timestamp := 0
         model_name := "gpt-4"
         interface_type := "api" } : ModelResponse).usage.completion_tokens) :=
  ⟨C7_total_tokens_invariant.1 [] 0 "gpt-4" "api" 10 5 "basic_qa" 1 none,
   C7_total_tokens_invariant.2.1 "gemini-1.5-pro" "api"
     (Except.ok { content := "hi", prompt_tokens := 3,
                  completion_tokens := 4 }) 0 0,
   C7_total_tokens_invariant.2.2 "gpt-4" "api" 3 0 0 0 0
     (Except.ok { content := "y", prompt_tokens := 1, completion_tokens := 2,
                  total_tokens := 3 }) 0 0 _ (by decide)
     (by simp [openai_generate_response, rate_limit])⟩

/-! ## C2 -/

/-- `_track_metrics` appends exactly one record to each configured
tracker. -/
theorem track_metrics_appends (st : ClientState) (r : ModelResponse)
    (atype : String) (ts : Rat) (l1 : List PerformanceMetric)
    (l2 : List UsageRecord) (h1 : st.metrics_tracker = some l1)
    (h2 : st.cost_tracker = some l2) :
    ∃ (pm : PerformanceMetric) (ur : UsageRecord),
      (track_metrics st r atype ts).metrics_tracker = some (l1 ++ [pm]) ∧
      (track_metrics st r atype ts).cost_tracker = some (l2 ++ [ur]) := by
  simp only [track_metrics, h1, h2, Option.map_some']
  exact ⟨_, _, rfl, rfl⟩

/-- C2: evaluation at the failing input — an OpenAI call on a client with
both trackers configured, the source's fixed `retry_attempts = 3` and
`min_request_interval = 0.5`, the rate limit satisfied (previous request at
time 0, current clock 1), and the single provider attempt raising `boom`:
the `TypeError` from the backoff `await time.sleep(retry_delay)` escapes
`generate_response` before `_track_metrics` runs, so zero records are
appended to either tracker — against the claimed (and clearly intended:
the tracking call sits directly after the loop) exactly-once reporting.
On the path that does resolve to a response, `_track_metrics` still
appends exactly one record to each tracker (`track_metrics_appends`). -/
theorem C2_await_bug_evaluation :
    (openai_call sampleClient 3 (1/2) 1 0 (Except.error "boom") "general" 1
      0).1 = Except.error awaitNoneTypeError ∧
    (openai_call sampleClient 3 (1/2) 1 0 (Except.error "boom") "general" 1
      0).2.metrics_tracker = some [] ∧
    (openai_call sampleClient 3 (1/2) 1 0 (Except.error "boom") "general" 1
      0).2.cost_tracker = some [] := by
  norm_num [openai_call, openai_generate_response, rate_limit, sampleClient]

/-! ## C10 -/

/-- Invariant of the incremental running-average update in
`_track_metrics`: over any sequence of tracked responses, the product
`average_latency * total_requests` grows by exactly the sum of the tracked
latencies, and `total_requests` by the number of calls. -/
theorem runTrack_invariant (atype : String) :
    ∀ (pairs : List (ModelResponse × Rat)) (st : ClientState),
      (runTrackList st atype pairs).metrics.total_requests =
        st.metrics.total_requests + pairs.length ∧
      (runTrackList st atype pairs).metrics.average_latency *
          ((st.metrics.total_requests + pairs.length : Nat) : Rat) =
        st.metrics.average_latency * (st.metrics.total_requests : Rat) +
          (pairs.map (fun p => p.1.latency)).sum := by
  intro pairs
  induction pairs with
  | nil =>
    intro st
    simp [runTrackList]
  | cons pr rest ih =>
    intro st
    have hstep : runTrackList st atype (pr :: rest) =
        runTrackList (track_metrics st pr.1 atype pr.2) atype rest := rfl
    rw [hstep]
    obtain ⟨ihn, ihs⟩ := ih (track_metrics st pr.1 atype pr.2)
    have hn : (track_metrics st pr.1 atype pr.2).metrics.total_requests =
        st.metrics.total_requests + 1 := rfl
    have ha : (track_metrics st pr.1 atype pr.2).metrics.average_latency =
        (st.metrics.average_latency *
            (((st.metrics.total_requests + 1 : Nat) : Rat) - 1) +
          pr.1.latency) /
          ((st.metrics.total_requests + 1 : Nat) : Rat) := rfl
    constructor
    · rw [ihn, hn]
      simp [List.length_cons]
      omega
    · have hcast : (st.metrics.total_requests + (pr :: rest).length : Nat) =
          ((track_metrics st pr.1 atype pr.2).metrics.total_requests +
            rest.length : Nat) := by
        rw [hn]
        simp [List.length_cons]
        omega
      rw [hcast, ihs, ha, hn, List.map_cons, List.sum_cons]
      have hne : ((st.metrics.total_requests + 1 : Nat) : Rat) ≠ 0 := by
        exact_mod_cast Nat.succ_ne_zero st.metrics.total_requests
      rw [div_mul_cancel₀ _ hne]
      push_cast
      ring

/-- C10: after any non-empty sequence of `_track_metrics` calls starting
from a freshly initialised local-metrics dict, `total_requests` equals the
number of calls and `average_latency` equals the arithmetic mean of the
tracked latencies — the incremental running-average update is equivalent to
recomputing the mean from scratch. -/
theorem C10_running_average (st0 : ClientState) (atype : String)
    (pairs : List (ModelResponse × Rat)) (h0 : st0.metrics = {})
    (hne : pairs ≠ []) :
    (runTrackList st0 atype pairs).metrics.total_requests = pairs.length ∧
    (runTrackList st0 atype pairs).metrics.average_latency =
      (pairs.map (fun p => p.1.latency)).sum / (pairs.length : Rat) := by
  obtain ⟨h1, h2⟩ := runTrack_invariant atype pairs st0
  rw [h0] at h1 h2
  constructor
  · simpa using h1
  · have hlen0 : pairs.length ≠ 0 := fun h => hne (List.length_eq_zero.mp h)
    have hlen : (pairs.length : Rat) ≠ 0 := Nat.cast_ne_zero.mpr hlen0
    rw [eq_div_iff hlen]
    simpa using h2

/-- C10 witness: two tracked responses with latencies 0 and 3 on a fresh
client. -/
theorem C10_running_average_witness :
    (runTrackList sampleClient "general"
        [(stubResponse, 0),
         ({ stubResponse with latency := 3 }, 0)]).metrics.total_requests =
      [(stubResponse, (0 : Rat)),
       ({ stubResponse with latency := 3 }, 0)].length ∧
    (runTrackList sampleClient "general"
        [(stubResponse, 0),
         ({ stubResponse with latency := 3 }, 0)]).metrics.average_latency =
      ([(stubResponse, (0 : Rat)),
        ({ stubResponse with latency := 3 }, 0)].map
          (fun p => p.1.latency)).sum /
        (([(stubResponse, (0 : Rat)),
           ({ stubResponse with latency := 3 }, 0)].length : Nat) : Rat) :=
  C10_running_average sampleClient "general"
    [(stubResponse, 0), ({ stubResponse with latency := 3 }, 0)] rfl
    (List.cons_ne_nil _ _)

/-! ## C9 -/

theorem lookup_eq_none_iff (g : List (String × List Rat)) (k : String) :
    g.lookup k = none ↔ k ∉ g.map Prod.fst := by
  induction g with
  | nil => simp [List.lookup]
  | cons p g' ih =>
    obtain ⟨k0, vs⟩ := p
    cases hb : k == k0 with
    | true =>
      have hk : k = k0 := eq_of_beq hb
      subst hk
      simp [List.lookup]
    | false =>
      have hk : ¬(k = k0) := fun h => by subst h; simp at hb
      simp [List.lookup, hb, ih, hk]

theorem groupUpsert_lookup_self (g : List (String × List Rat)) (k : String)
    (v : Rat) :
    (groupUpsert g k v).lookup k = some ((g.lookup k).getD [] ++ [v]) := by
  induction g with
  | nil => simp [groupUpsert, List.lookup]
  | cons p g' ih =>
    obtain ⟨k0, vs⟩ := p
    by_cases hk : k0 = k
    · subst hk
      simp [groupUpsert, List.lookup]
    · have hb : (k == k0) = false := by
        cases hb : k == k0 with
        | true => exact absurd (eq_of_beq hb).symm hk
        | false => rfl
      simp [groupUpsert, hk, List.lookup, hb, ih]

theorem groupUpsert_lookup_ne (g : List (String × List Rat))
    (k k2 : String) (v : Rat) (hne : k2 ≠ k) :
    (groupUpsert g k v).lookup k2 = g.lookup k2 := by
  induction g with
  | nil =>
    have hb : (k2 == k) = false := by
      cases hb : k2 == k with
      | true => exact absurd (eq_of_beq hb) hne
      | false => rfl
    simp [groupUpsert, List.lookup, hb]
  | cons p g' ih =>
    obtain ⟨k0, vs⟩ := p
    by_cases hk : k0 = k
    · subst hk
      have hb : (k2 == k0) = false := by
        cases hb2 : k2 == k0 with
        | true => exact absurd (eq_of_beq hb2) hne
        | false => rfl
      simp [groupUpsert, List.lookup, hb]
    · simp only [groupUpsert, if_neg hk]
      cases hb : k2 == k0 with
      | true => simp [List.lookup, hb]
      | false => simp [List.lookup, hb, ih]

theorem groupUpsert_keys (g : List (String × List Rat)) (k : String)
    (v : Rat) :
    (groupUpsert g k v).map Prod.fst =
      if k ∈ g.map Prod.fst then g.map Prod.fst
      else g.map Prod.fst ++ [k] := by
  induction g with
  | nil => simp [groupUpsert]
  | cons p g' ih =>
    obtain ⟨k0, vs⟩ := p
    by_cases hk : k0 = k
    · subst hk
      simp [groupUpsert]
    · have hk2 : ¬(k = k0) := fun h => hk h.symm
      by_cases hmem : k ∈ g'.map Prod.fst
      · simp [groupUpsert, hk, ih, hmem, hk2]
      · simp [groupUpsert, hk, ih, hmem, hk2]

/-- One fold step at a time: the grouped values at each key are the
filtered values, in order. -/
theorem groupFold_lookup_getD (key : PerformanceMetric → String)
    (val : PerformanceMetric → Rat) :
    ∀ (ms : List PerformanceMetric) (g : List (String × List Rat))
      (k : String),
      (((ms.foldl (fun g m => groupUpsert g (key m) (val m)) g).lookup
          k).getD []) =
        (g.lookup k).getD [] ++ (ms.filter (fun m => key m = k)).map val := by
  intro ms
  induction ms with
  | nil => intro g k; simp
  | cons m rest ih =>
    intro g k
    have hstep : (m :: rest).foldl
        (fun g m => groupUpsert g (key m) (val m)) g =
        rest.foldl (fun g m => groupUpsert g (key m) (val m))
          (groupUpsert g (key m) (val m)) := rfl
    rw [hstep, ih]
    by_cases hk : key m = k
    · rw [hk, groupUpsert_lookup_self]
      simp [List.filter_cons, hk]
    · rw [groupUpsert_lookup_ne g (key m) k (val m) (fun h => hk h.symm)]
      simp [List.filter_cons, hk]

theorem groupFold_lookup_none_iff (key : PerformanceMetric → String)
    (val : PerformanceMetric → Rat) :
    ∀ (ms : List PerformanceMetric) (g : List (String × List Rat))
      (k : String),
      (ms.foldl (fun g m => groupUpsert g (key m) (val m)) g).lookup k =
          none ↔
        (g.lookup k = none ∧ k ∉ ms.map key) := by
  intro ms
  induction ms with
  | nil => intro g k; simp
  | cons m rest ih =>
    intro g k
    have hstep : (m :: rest).foldl
        (fun g m => groupUpsert g (key m) (val m)) g =
        rest.foldl (fun g m => groupUpsert g (key m) (val m))
          (groupUpsert g (key m) (val m)) := rfl
    rw [hstep, ih]
    by_cases hk : key m = k
    · have hself := groupUpsert_lookup_self g (key m) (val m)
      rw [hk] at hself
      simp [hself, List.map_cons, hk]
    · have hk2 : k ≠ key m := fun h => hk h.symm
      rw [groupUpsert_lookup_ne g (key m) k (val m) hk2]
      simp [List.map_cons, hk2]

theorem groupFold_keys_nodup (key : PerformanceMetric → String)
    (val : PerformanceMetric → Rat) :
    ∀ (ms : List PerformanceMetric) (g : List (String × List Rat)),
      (g.map Prod.fst).Nodup →
      ((ms.foldl (fun g m => groupUpsert g (key m) (val m)) g).map
        Prod.fst).Nodup := by
  intro ms
  induction ms with
  | nil => intro g hg; exact hg
  | cons m rest ih =>
    intro g hg
    have hstep : (m :: rest).foldl
        (fun g m => groupUpsert g (key m) (val m)) g =
        rest.foldl (fun g m => groupUpsert g (key m) (val m))
          (groupUpsert g (key m) (val m)) := rfl
    rw [hstep]
    apply ih
    rw [groupUpsert_keys]
    by_cases hmem : key m ∈ g.map Prod.fst
    · rwa [if_pos hmem]
    · rw [if_neg hmem]
      simp [List.nodup_append, hg, hmem]

theorem lookup_map_mean (g : List (String × List Rat)) (k : String) :
    (g.map (fun p => (p.1, pyMean p.2))).lookup k =
      (g.lookup k).map pyMean := by
  induction g with
  | nil => simp [List.lookup]
  | cons p g' ih =>
    obtain ⟨k0, vs⟩ := p
    cases hb : k == k0 with
    | true => simp [List.lookup, hb]
    | false => simp [List.lookup, hb, ih]

/-- C9: on a non-empty metrics log,
`get_average_response_time(group_by='model')` returns a dict whose keys are
exactly the distinct models occurring in the log (each exactly once) and
whose value at each model is the arithmetic mean of that model's
`response_time` samples — single-sample groups included, since every group
is non-empty by construction. On the concrete log with samples A:1,2,3 and
B:4,6 the result is exactly `{A: 2, B: 5}`. -/
theorem C9_grouped_mean :
    (∀ ms : List PerformanceMetric, ms ≠ [] →
      (∀ k, k ∈ (get_average_response_time_by_model ms).map Prod.fst ↔
        k ∈ ms.map (fun m => m.model)) ∧
      ((get_average_response_time_by_model ms).map Prod.fst).Nodup ∧
      (∀ k, k ∈ ms.map (fun m => m.model) →
        (get_average_response_time_by_model ms).lookup k =
          some (pyMean ((ms.filter (fun m => m.model = k)).map
            (fun m => m.response_time))))) ∧
    get_average_response_time_by_model sampleMetrics5 =
      [("A", 2), ("B", 5)] := by
  constructor
  · intro ms hne
    cases ms with
    | nil => exact absurd rfl hne
    | cons m0 rest =>
      have hdef : get_average_response_time_by_model (m0 :: rest) =
          (groupField (fun m => m.model) (fun m => m.response_time)
            (m0 :: rest)).map (fun p => (p.1, pyMean p.2)) := rfl
      rw [hdef]
      have hkeys : ((groupField (fun m => m.model)
          (fun m => m.response_time) (m0 :: rest)).map
            (fun p => (p.1, pyMean p.2))).map Prod.fst =
          (groupField (fun m => m.model) (fun m => m.response_time)
            (m0 :: rest)).map Prod.fst := by
        simp [List.map_map]
      refine ⟨?_, ?_, ?_⟩
      · intro k
        rw [hkeys]
        have := groupFold_lookup_none_iff (fun m => m.model)
          (fun m => m.response_time) (m0 :: rest) [] k
        constructor
        · intro hmemk
          by_contra hnot
          have : (groupField (fun m => m.model) (fun m => m.response_time)
              (m0 :: rest)).lookup k = none :=
            this.mpr ⟨by simp [List.lookup], hnot⟩
          exact ((lookup_eq_none_iff _ k).mp this) hmemk
        · intro hmemk
          by_contra hnot
          have hnone := (lookup_eq_none_iff _ k).mpr hnot
          exact ((this.mp hnone).2) hmemk
      · rw [hkeys]
        exact groupFold_keys_nodup (fun m => m.model)
          (fun m => m.response_time) (m0 :: rest) [] (by simp)
      · intro k hmemk
        rw [lookup_map_mean]
        have hnn : (groupField (fun m => m.model) (fun m => m.response_time)
            (m0 :: rest)).lookup k ≠ none := by
          intro hnone
          have := (groupFold_lookup_none_iff (fun m => m.model)
            (fun m => m.response_time) (m0 :: rest) [] k).mp hnone
          exact this.2 hmemk
        obtain ⟨vs, hvs⟩ := Option.ne_none_iff_exists'.mp hnn
        have hgetd : ((groupField (fun m => m.model)
            (fun m => m.response_time) (m0 :: rest)).lookup k).getD [] =
            ((m0 :: rest).filter (fun m => m.model = k)).map
              (fun m => m.response_time) := by
          have h0 := groupFold_lookup_getD (fun m => m.model)
            (fun m => m.response_time) (m0 :: rest) [] k
          simpa using h0
        rw [hvs] at hgetd
        simp only [Option.getD_some] at hgetd
        rw [hvs, Option.map_some', hgetd]
  · show (groupField (fun m => m.model) (fun m => m.response_time)
        sampleMetrics5).map (fun p => (p.1, pyMean p.2)) =
      [("A", 2), ("B", 5)]
    simp only [ sampleMetrics5, groupField, List.foldl, groupUpsert,
      List.map]
    norm_num [pyMean]

/-- C9 witness: the concrete log `sampleMetrics5` (A: 1,2,3 and B: 4,6) is
non-empty; the grouped means are exactly `{A: 2, B: 5}`, including the
general key/value characterization. -/
theorem C9_grouped_mean_witness :
    ((∀ k, k ∈ (get_average_response_time_by_model sampleMetrics5).map
          Prod.fst ↔
        k ∈ sampleMetrics5.map (fun m => m.model)) ∧
      ((get_average_response_time_by_model sampleMetrics5).map
        Prod.fst).Nodup ∧
      (∀ k, k ∈ sampleMetrics5.map (fun m => m.model) →
        (get_average_response_time_by_model sampleMetrics5).lookup k =
          some (pyMean ((sampleMetrics5.filter
            (fun m => m.model = k)).map (fun m => m.response_time))))) ∧
    get_average_response_time_by_model sampleMetrics5 =
      [("A", 2), ("B", 5)] :=
  ⟨C9_grouped_mean.1 sampleMetrics5 (List.cons_ne_nil _ _),
   C9_grouped_mean.2⟩

/-! ## C4 -/

theorem rangeUpAux_head (fuel i stop step : Nat) :
    rangeUpAux fuel i stop step = [] ∨
    ∃ t, rangeUpAux fuel i stop step = i :: t := by
  cases fuel with
  | zero => exact Or.inl rfl
  | succ f =>
    by_cases h : i < stop
    · exact Or.inr ⟨rangeUpAux f (i + step) stop step,
        by simp [rangeUpAux, h]⟩
    · exact Or.inl (by simp [rangeUpAux, h])

theorem rangeUpAux_empty_iff (step : Nat) :
    ∀ (fuel i stop : Nat), stop ≤ i + fuel * step →
      (rangeUpAux fuel i stop step = [] ↔ stop ≤ i) := by
  intro fuel
  induction fuel with
  | zero =>
    intro i stop hf
    constructor
    · intro _
      simpa using hf
    · intro _
      rfl
  | succ f ih =>
    intro i stop hf
    by_cases h : i < stop
    · simp only [rangeUpAux, if_pos h]
      exact ⟨fun hx => absurd hx (List.cons_ne_nil _ _),
        fun hle => absurd hle (by omega)⟩
    · have hle : stop ≤ i := Nat.not_lt.mp h
      simp [rangeUpAux, if_neg h, hle]

theorem rangeUpAux_chain (step : Nat) :
    ∀ (fuel i stop : Nat),
      List.Chain' (fun a b => b = a + step) (rangeUpAux fuel i stop step) := by
  intro fuel
  induction fuel with
  | zero => intro i stop; simp [rangeUpAux]
  | succ f ih =>
    intro i stop
    by_cases h : i < stop
    · simp only [rangeUpAux, if_pos h]
      rw [List.chain'_cons']
      refine ⟨?_, ih (i + step) stop⟩
      intro b hb
      rcases rangeUpAux_head f (i + step) stop step with he | ⟨t, ht⟩
      · rw [he] at hb
        simp at hb
      · rw [ht] at hb
        simp at hb
        exact hb.symm
    · simp [rangeUpAux, h]

theorem rangeUpAux_mem_bounds (step : Nat) :
    ∀ (fuel i stop x : Nat), x ∈ rangeUpAux fuel i stop step →
      i ≤ x ∧ x < stop := by
  intro fuel
  induction fuel with
  | zero => intro i stop x hx; simp [rangeUpAux] at hx
  | succ f ih =>
    intro i stop x hx
    by_cases h : i < stop
    · simp only [rangeUpAux, if_pos h, List.mem_cons] at hx
      rcases hx with rfl | hx
      · exact ⟨le_refl x, h⟩
      · obtain ⟨h1, h2⟩ := ih (i + step) stop x hx
        exact ⟨by omega, h2⟩
    · simp [rangeUpAux, h] at hx

theorem rangeUpAux_getLast (step : Nat) :
    ∀ (fuel i stop last : Nat), stop ≤ i + fuel * step →
      (rangeUpAux fuel i stop step).getLast? = some last →
      last < stop ∧ stop ≤ last + step := by
  intro fuel
  induction fuel with
  | zero => intro i stop last hf h; simp [rangeUpAux] at h
  | succ f ih =>
    intro i stop last hf h
    have h2 : stop ≤ i + step + f * step := by
      rw [Nat.succ_mul] at hf
      calc stop ≤ i + (f * step + step) := hf
        _ = i + step + f * step := by ring
    by_cases hlt : i < stop
    · simp only [rangeUpAux, if_pos hlt] at h
      rcases rangeUpAux_head f (i + step) stop step with he | ⟨t, ht⟩
      · rw [he] at h
        simp at h
        subst h
        have hcov := (rangeUpAux_empty_iff step f (i + step) stop h2).mp he
        exact ⟨hlt, hcov⟩
      · rw [ht, List.getLast?_cons_cons] at h
        apply ih (i + step) stop last h2
        rw [ht]
        exact h
    · simp [rangeUpAux, hlt] at h

theorem mem_dropWhile_of_not {p : Char → Bool} :
    ∀ (l : List Char) (x : Char), x ∈ l → p x = false →
      x ∈ l.dropWhile p := by
  intro l
  induction l with
  | nil => intro x hx _; simp at hx
  | cons c cs ih =>
    intro x hx hpx
    cases hc : p c with
    | true =>
      rw [List.dropWhile_cons, if_pos hc]
      rcases List.mem_cons.mp hx with rfl | hx2
      · rw [hc] at hpx
        cases hpx
      · exact ih x hx2 hpx
    | false =>
      rw [List.dropWhile_cons, if_neg (by simp [hc])]
      exact hx

theorem pyStrip_pos (s : String) (c : Char) (hc : c ∈ s.data)
    (hw : c.isWhitespace = false) : 0 < (pyStrip s).length := by
  have h1 : c ∈ s.data.dropWhile Char.isWhitespace :=
    mem_dropWhile_of_not _ c hc hw
  have h2 : c ∈ (s.data.dropWhile Char.isWhitespace).reverse :=
    List.mem_reverse.mpr h1
  have h3 : c ∈ ((s.data.dropWhile Char.isWhitespace).reverse.dropWhile
      Char.isWhitespace) := mem_dropWhile_of_not _ c h2 hw
  have h4 : (((s.data.dropWhile Char.isWhitespace).reverse.dropWhile
      Char.isWhitespace).reverse) ≠ [] := by
    intro h
    rw [List.reverse_eq_nil_iff] at h
    rw [h] at h3
    simp at h3
  have h5 : (pyStrip s).length =
      (((s.data.dropWhile Char.isWhitespace).reverse.dropWhile
        Char.isWhitespace).reverse).length := rfl
  rw [h5]
  exact List.length_pos.mpr h4

theorem pySplitAux_words :
    ∀ (cs cur : List Char), (∀ c ∈ cur, c.isWhitespace = false) →
      ∀ w ∈ pySplitAux cs cur,
        w.data ≠ [] ∧ ∀ c ∈ w.data, c.isWhitespace = false := by
  intro cs
  induction cs with
  | nil =>
    intro cur hcur w hw
    cases cur with
    | nil => simp [pySplitAux] at hw
    | cons c0 cur2 =>
      simp [pySplitAux] at hw
      subst hw
      refine ⟨by simp, ?_⟩
      intro c hc
      simp at hc
      exact hcur c (List.mem_reverse.mp (by simpa using hc))
  | cons c cs2 ih =>
    intro cur hcur w hw
    cases hwc : c.isWhitespace with
    | true =>
      cases cur with
      | nil =>
        rw [show pySplitAux (c :: cs2) [] = pySplitAux cs2 [] by
          simp [pySplitAux, hwc]] at hw
        exact ih [] (by simp) w hw
      | cons c0 cur2 =>
        rw [show pySplitAux (c :: cs2) (c0 :: cur2) =
            String.mk (c0 :: cur2).reverse :: pySplitAux cs2 [] by
          simp [pySplitAux, hwc]] at hw
        rcases List.mem_cons.mp hw with rfl | hw2
        · refine ⟨by simp, ?_⟩
          intro ch hch
          simp at hch
          exact hcur ch (List.mem_reverse.mp (by simpa using hch))
        · exact ih [] (by simp) w hw2
    | false =>
      rw [show pySplitAux (c :: cs2) cur = pySplitAux cs2 (c :: cur) by
        simp [pySplitAux, hwc]] at hw
      refine ih (c :: cur) ?_ w hw
      intro x hx
      rcases List.mem_cons.mp hx with rfl | hx2
      · exact hwc
      · exact hcur x hx2

theorem pySplit_words (text : String) :
    ∀ w ∈ pySplit text,
      w.data ≠ [] ∧ ∀ c ∈ w.data, c.isWhitespace = false :=
  pySplitAux_words text.data [] (by simp)

theorem joinWords_data_mem (w : String) (ws : List String) (c : Char)
    (hc : c ∈ w.data) : c ∈ (joinWords (w :: ws)).data := by
  cases ws with
  | nil => exact hc
  | cons w2 ws2 =>
    show c ∈ (w ++ " " ++ joinWords (w2 :: ws2)).data
    simp only [String.data_append, List.mem_append]
    exact Or.inl (Or.inl hc)

theorem chunk_strip_pos (words : List String)
    (hwords : ∀ w ∈ words,
      w.data ≠ [] ∧ ∀ c ∈ w.data, c.isWhitespace = false)
    (size : Nat) (hsize : 0 < size) (i : Nat) (hi : i < words.length) :
    0 < (pyStrip (joinWords ((words.drop i).take size))).length := by
  have hdrop : words.drop i ≠ [] := by
    intro h
    rw [List.drop_eq_nil_iff] at h
    omega
  obtain ⟨w, rest, hwr⟩ := List.exists_cons_of_ne_nil hdrop
  obtain ⟨k, rfl⟩ : ∃ k, size = k + 1 := ⟨size - 1, by omega⟩
  rw [hwr, List.take_succ_cons]
  have hwmem : w ∈ words := by
    have hmem : w ∈ words.drop i := by
      rw [hwr]
      exact List.mem_cons_self _ _
    exact List.drop_subset i words hmem
  obtain ⟨hne, hnw⟩ := hwords w hwmem
  obtain ⟨c, hc⟩ := List.exists_mem_of_ne_nil w.data hne
  exact pyStrip_pos _ c (joinWords_data_mem w _ c hc) (hnw c hc)

/-- C4: for a valid configuration `0 ≤ overlap < size`, the chunker yields
exactly the chunks starting at word indices `0, s, 2s, ...`
(`s = size - overlap`): consecutive start indices differ by exactly `s`
(strictly increasing), each chunk is the whitespace-join of words
`[i, i+size)`, the starts stay below the word count and the last start
covers the text (`N ≤ last + s ≤ last + size`), and the empty-chunk filter
drops nothing because every chunk contains a non-whitespace word. -/
theorem C4_chunk_layout (text : String) (chunk_size overlap : Nat)
    (hov : overlap < chunk_size) :
    ∃ starts : List Nat,
      chunk_text chunk_size overlap (pySplit text) =
        Except.ok (starts.map (fun i =>
          joinWords (((pySplit text).drop i).take chunk_size))) ∧
      starts.head? =
        (if (pySplit text).length = 0 then none else some 0) ∧
      List.Chain' (fun a b => b = a + (chunk_size - overlap)) starts ∧
      (∀ last, starts.getLast? = some last →
        last < (pySplit text).length ∧
        (pySplit text).length ≤ last + (chunk_size - overlap)) ∧
      (∀ i ∈ starts, i < (pySplit text).length) := by
  have hs : 0 < chunk_size - overlap := by omega
  have hfuel : (pySplit text).length ≤
      0 + (pySplit text).length * (chunk_size - overlap) := by
    have := Nat.le_mul_of_pos_right (pySplit text).length hs
    omega
  refine ⟨pyRangeUp (pySplit text).length (chunk_size - overlap),
    ?_, ?_, ?_, ?_, ?_⟩
  · have hstep0 : ¬((chunk_size : Int) - (overlap : Int) = 0) := by omega
    have hstep1 : ¬((chunk_size : Int) - (overlap : Int) < 0) := by omega
    have htoNat : ((chunk_size : Int) - (overlap : Int)).toNat =
        chunk_size - overlap := by omega
    simp only [chunk_text, if_neg hstep0, if_neg hstep1, htoNat]
    congr 1
    apply List.filter_eq_self.mpr
    intro chunk hchunk
    obtain ⟨i, hi, rfl⟩ := List.mem_map.mp hchunk
    have hib := (rangeUpAux_mem_bounds (chunk_size - overlap)
      (pySplit text).length 0 (pySplit text).length i hi).2
    exact decide_eq_true
      (chunk_strip_pos (pySplit text) (pySplit_words text) chunk_size
        (by omega) i hib)
  · cases hlen : (pySplit text).length with
    | zero => rfl
    | succ n =>
      have hcons : pyRangeUp (n + 1) (chunk_size - overlap) =
          0 :: rangeUpAux n (0 + (chunk_size - overlap)) (n + 1)
            (chunk_size - overlap) := by
        show rangeUpAux (n + 1) 0 (n + 1) (chunk_size - overlap) = _
        simp [rangeUpAux]
      rw [hcons]
      rfl
  · exact rangeUpAux_chain (chunk_size - overlap) (pySplit text).length 0
      (pySplit text).length
  · intro last hlast
    exact rangeUpAux_getLast (chunk_size - overlap)
      (pySplit text).length 0 (pySplit text).length last hfuel hlast
  · intro i hi
    exact (rangeUpAux_mem_bounds (chunk_size - overlap)
      (pySplit text).length 0 (pySplit text).length i hi).2

/-- C4 witness: the five-word text with `size = 2`, `overlap = 1`. -/
theorem C4_chunk_layout_witness :
    ∃ starts : List Nat,
      chunk_text 2 1 (pySplit "alpha beta gamma delta epsilon") =
        Except.ok (starts.map (fun i =>
          joinWords (((pySplit "alpha beta gamma delta epsilon").drop
            i).take 2))) ∧
      starts.head? =
        (if (pySplit "alpha beta gamma delta epsilon").length = 0 then none
         else some 0) ∧
      List.Chain' (fun a b => b = a + (2 - 1)) starts ∧
      (∀ last, starts.getLast? = some last →
        last < (pySplit "alpha beta gamma delta epsilon").length ∧
        (pySplit "alpha beta gamma delta epsilon").length ≤
          last + (2 - 1)) ∧
      (∀ i ∈ starts,
        i < (pySplit "alpha beta gamma delta epsilon").length) :=
  C4_chunk_layout "alpha beta gamma delta epsilon" 2 1 (by decide)

end ISUDigitalLib
